import Mathlib

/-!
Shallow embedding of the product-catalog backend (`src/main.py`, a FastAPI
application over a MongoDB collection).  Numeric values (Python `float` /
`int`, BSON doubles and int32/64) are modelled exactly as rationals and
integers; no claim here depends on floating-point rounding.  The MongoDB
`$regex` filter with `$options: "i"` is modelled as a case-insensitive
substring match, its behaviour on literal (metacharacter-free) patterns.
-/

namespace ShoppingApi

/-- A loosely-typed BSON value as it can appear in a stored document field. -/
inductive BVal where
  | vnull : BVal
  | vstr (s : String) : BVal
  | vint (n : Int) : BVal
  | vnum (q : ℚ) : BVal
  | vbool (b : Bool) : BVal
deriving DecidableEq, Repr

open BVal

/-- A raw MongoDB document of the `product` collection.  Every field may be
absent (`none`).  `idField` models the `_id` ObjectId, rendered as its
lowercase 24-hex-character string form.  The `created_at` / `updated_at`
timestamps written by `create_product` are never read back by
`_doc_to_product`, so they are not part of the model. -/
structure RawDoc where
  idField : Option String
  title : Option BVal
  description : Option BVal
  price : Option BVal
  category : Option BVal
  in_stock : Option BVal
  image : Option BVal
  rating : Option BVal
  reviews : Option BVal
deriving DecidableEq, Repr

/-- The `ProductIn` pydantic model: request body of `POST /api/products`.
`rating`, `reviews`, `description`, `image` are `Optional`, so an explicit
JSON `null` is a legal value for them. -/
structure ProductIn where
  title : String
  description : Option String
  price : ℚ
  category : String
  in_stock : Bool
  image : Option String
  rating : Option ℚ
  reviews : Option Int
deriving DecidableEq, Repr

/-- The `ProductOut` pydantic model (`ProductIn` plus `id`), as produced by
`_doc_to_product`: there `rating` and `reviews` always receive the result of
a `float()` / `int()` call, hence are never `None`. -/
structure ProductOut where
  id : String
  title : String
  description : Option String
  price : ℚ
  category : String
  in_stock : Bool
  image : Option String
  rating : ℚ
  reviews : Int
deriving DecidableEq, Repr

/-- Python `float(x)` on a BSON value: succeeds on numbers and booleans,
raises (`none`) on `None`.  (Numeric strings would also convert in Python;
no stored string values are coerced anywhere in the claims, and the model
treats string input to `float()` as a failure.) -/
def pyFloat : BVal → Option ℚ
  | vnull => none
  | vstr _ => none
  | vint n => some (n : ℚ)
  | vnum q => some q
  | vbool b => some (if b then 1 else 0)

/-- Python `int(x)` on a BSON value: succeeds on numbers (truncating a
non-integer toward zero, as Python `int()` does) and booleans, raises
(`none`) on `None`, and (as for `pyFloat`) the model treats strings as a
failure. -/
def pyInt : BVal → Option Int
  | vnull => none
  | vstr _ => none
  | vint n => some n
  | vnum q => some (if 0 ≤ q then ⌊q⌋ else ⌈q⌉)
  | vbool b => some (if b then 1 else 0)

/-- Python `bool(x)` (truthiness) on a BSON value; never raises. -/
def pyBool : BVal → Bool
  | vnull => false
  | vstr s => s ≠ ""
  | vint n => n ≠ 0
  | vnum q => q ≠ 0
  | vbool b => b

/-- Pydantic validation of a required `str` field: only an actual string is
accepted (pydantic v2 does not coerce `None` or numbers to `str`). -/
def asStr : Option BVal → Option String
  | some (vstr s) => some s
  | _ => none

/-- Pydantic validation of an `Optional[str]` field: absent key or `None`
both become `None`; a string passes; anything else is rejected. -/
def asOptStr : Option BVal → Option (Option String)
  | none => some none
  | some vnull => some none
  | some (vstr s) => some (some s)
  | _ => none

/-- `str(doc.get("_id"))`: the ObjectId rendered as its string form;
`str(None)` when the key is absent. -/
def renderId : Option String → String
  | some s => s
  | none => "None"

/-- `_doc_to_product(doc)` from `src/main.py` lines 86-97.  Field
expressions are evaluated in source order; any coercion failure
(`float(None)`, `int(None)`, ...) or pydantic validation failure
(e.g. a missing `title`) makes the whole call raise, modelled as `none`. -/
def doc_to_product (d : RawDoc) : Option ProductOut :=
  (asStr d.title).bind fun title =>
  (asOptStr d.description).bind fun description =>
  (pyFloat (d.price.getD (vint 0))).bind fun price =>
  (asStr d.category).bind fun category =>
  (asOptStr d.image).bind fun image =>
  (pyFloat (d.rating.getD (vnum (4.5 : ℚ)))).bind fun rating =>
  (pyInt (d.reviews.getD (vint 0))).bind fun reviews =>
  some { id := renderId d.idField, title, description, price, category,
         in_stock := pyBool (d.in_stock.getD (vbool true)), image, rating, reviews }

/-- The Mongo filter document built by `list_products` (lines 110-118):
an optional `$or` of two case-insensitive `$regex` clauses on
`title`/`description`, and an optional exact `category` clause. -/
structure Filter where
  orRegex : Option String
  category : Option String
deriving DecidableEq, Repr

/-- Lines 110-118 of `list_products`: `if q:` and `if category:` are Python
truthiness tests, so `None` and the empty string both leave the
corresponding clause out of the filter. -/
def build_filters (q category : Option String) : Filter :=
  { orRegex := match q with
      | some s => if s = "" then none else some s
      | none => none,
    category := match category with
      | some s => if s = "" then none else some s
      | none => none }

/-- Case-insensitive substring test: does `pat` occur in `hay` ignoring
case?  This is the behaviour of Mongo `$regex` with `$options: "i"` on a
literal pattern. -/
def ciContains (hay pat : String) : Bool :=
  decide (pat.toList.map Char.toLower <:+: hay.toList.map Char.toLower)

/-- A `$regex`/`"i"` clause against one document field: Mongo regex clauses
match only string-valued fields (an absent, null or numeric field does not
match). -/
def fieldCI (fv : Option BVal) (pat : String) : Bool :=
  match fv with
  | some (vstr s) => ciContains s pat
  | _ => false

/-- Mongo evaluation of the filter built by `list_products` against one
document: the `$or` clause (if present) requires a case-insensitive match
on `title` or `description`; the `category` clause (if present) requires
exact equality; top-level clauses of a filter document conjoin. -/
def matchesFilter (f : Filter) (d : RawDoc) : Bool :=
  (match f.orRegex with
    | none => true
    | some pat => fieldCI d.title pat || fieldCI d.description pat)
  && (match f.category with
    | none => true
    | some c => d.category = some (vstr c))

/-- FastAPI's handling of `limit: int = Query(24, ge=1, le=100)` (line 101):
absent means `24`; a value outside `[1, 100]` is rejected before the
handler body runs. -/
inductive ApiErr where
  | validation : ApiErr
  | notFound : ApiErr
  | serviceUnavailable : ApiErr
  | internal : ApiErr
deriving DecidableEq, Repr

/-- The declared `Query(24, ge=1, le=100)` contract for `limit`. -/
def validate_limit : Option Int → Except ApiErr Int
  | none => .ok 24
  | some n => if 1 ≤ n ∧ n ≤ 100 then .ok n else .error .validation

/-- `db["product"].find(filters).limit(limit)` (line 120): the documents of
the collection matching the filter, at most `lim` of them, in collection
order. -/
def find_with_limit (docs : List RawDoc) (f : Filter) (lim : Int) : List RawDoc :=
  (docs.filter (fun d => matchesFilter f d)).take lim.toNat

/-- The body of `list_products` (lines 101-122), over an explicit store
handle (`none` models the `database` module being unimportable or `db`
being `None`).  `limit` is the integer FastAPI hands the handler after
`validate_limit`.  A document on which `_doc_to_product` raises surfaces
as a 500, modelled `.internal`. -/
def list_products (db : Option (List RawDoc)) (q category : Option String)
    (limit : Int) : Except ApiErr (List ProductOut) :=
  match db with
  | none => .error .serviceUnavailable
  | some docs =>
      match (find_with_limit docs (build_filters q category) limit).mapM doc_to_product with
      | none => .error .internal
      | some ps => .ok ps

/-- `ObjectId(product_id)` (line 154) succeeds exactly on a 24-character
hexadecimal string (the only `str` form `bson.ObjectId` accepts). -/
def isValidObjectId (s : String) : Bool :=
  s.length = 24 && s.toList.all (fun ch =>
    ch.isDigit || (('a' ≤ ch && ch ≤ 'f') || ('A' ≤ ch && ch ≤ 'F')))

/-- `ObjectId` normalises hex case: `str(ObjectId(s))` is lowercase, and two
ObjectIds differing only in hex case are equal; parsing is modelled as
lowercasing the valid raw string. -/
def parseObjectId (s : String) : Option String :=
  if isValidObjectId s then some ⟨s.data.map Char.toLower⟩ else none

/-- The body of `get_product` (lines 143-161): store check first, then
ObjectId parsing (400 on failure), then `find_one({"_id": oid})` (404 when
no document matches), then `_doc_to_product`. -/
def get_product (db : Option (List RawDoc)) (product_id : String) :
    Except ApiErr ProductOut :=
  match db with
  | none => .error .serviceUnavailable
  | some docs =>
      match parseObjectId product_id with
      | none => .error .validation
      | some oid =>
          match docs.find? (fun d => d.idField = some oid) with
          | none => .error .notFound
          | some d =>
              match doc_to_product d with
              | none => .error .internal
              | some p => .ok p

/-- `product.model_dump()` plus the store-assigned `_id` (lines 136-139):
every `ProductIn` key is present in the stored document, an input `None`
becoming a stored BSON `null` (not an absent key).  The two timestamp
fields are attached by the code but never read back, so they are outside
the model. -/
def toStoredDoc (input : ProductIn) (oid : String) : RawDoc :=
  { idField := some oid,
    title := some (vstr input.title),
    description := some (input.description.elim vnull vstr),
    price := some (vnum input.price),
    category := some (vstr input.category),
    in_stock := some (vbool input.in_stock),
    image := some (input.image.elim vnull vstr),
    rating := some (input.rating.elim vnull vnum),
    reviews := some ((input.reviews.map vint).getD vnull) }

/-- The body of `create_product` (lines 125-140): store check first, then
one `insert_one`; `oid` is the fresh identifier the store assigns (a
lowercase hex ObjectId).  On success the returned string form of the new
id and the grown collection are produced; on 503 the store is untouched. -/
def create_product (db : Option (List RawDoc)) (input : ProductIn)
    (oid : String) : Except ApiErr (String × List RawDoc) :=
  match db with
  | none => .error .serviceUnavailable
  | some docs => .ok (oid, docs ++ [toStoredDoc input oid])

/-- The body of `list_categories` (lines 164-175), parametrised by the
sequence of distinct `category` values the store reports (which may contain
`null` or the empty string when such categories are stored): the Python
comprehension `[c for c in categories if c]` keeps the truthy ones in
store order. -/
def list_categories (db : Option (List BVal)) : Except ApiErr (List BVal) :=
  match db with
  | none => .error .serviceUnavailable
  | some cats => .ok (cats.filter (fun c => pyBool c))


/-! Concrete fixtures used by witnesses and counterexamples. -/

/-- A well-formed, lowercase 24-hex-character ObjectId string. -/
def oid0 : String := "0123456789abcdef01234567"

/-- A stored document with `rating` absent (so the 4.5 default applies). -/
def d0 : RawDoc :=
  { idField := some oid0, title := some (vstr "Blue Mug"), description := none,
    price := some (vnum 12), category := some (vstr "kitchen"),
    in_stock := some (vbool true), image := none, rating := none,
    reviews := some (vint 7) }

/-- The Product `_doc_to_product` derives from `d0`. -/
def p0 : ProductOut :=
  { id := oid0, title := "Blue Mug", description := none, price := 12,
    category := "kitchen", in_stock := true, image := none, rating := (4.5 : ℚ),
    reviews := 7 }

/-- A legal creation request carrying an explicit JSON `null` for `rating`. -/
def nullRatingInput : ProductIn :=
  { title := "Blue Mug", description := none, price := 12, category := "kitchen",
    in_stock := true, image := none, rating := none, reviews := some 0 }

/-- A creation request with every optional numeric field non-null. -/
def goodInput : ProductIn :=
  { title := "Blue Mug", description := some "ceramic", price := 12,
    category := "kitchen", in_stock := true, image := none,
    rating := some (4.5 : ℚ), reviews := some 7 }

/-- A stored document whose `reviews` value is the negative integer `-3`. -/
def negReviewsDoc : RawDoc :=
  { idField := some oid0, title := some (vstr "Blue Mug"), description := none,
    price := none, category := some (vstr "kitchen"), in_stock := none,
    image := none, rating := none, reviews := some (vint (-3)) }

/-- The Product `_doc_to_product` derives from `negReviewsDoc`. -/
def negReviewsProduct : ProductOut :=
  { id := oid0, title := "Blue Mug", description := none, price := 0,
    category := "kitchen", in_stock := true, image := none, rating := (4.5 : ℚ),
    reviews := -3 }

/-- A stored document whose `price` key is present but holds BSON `null`. -/
def nullPriceDoc : RawDoc :=
  { idField := some oid0, title := some (vstr "Blue Mug"), description := none,
    price := some vnull, category := some (vstr "kitchen"), in_stock := none,
    image := none, rating := none, reviews := none }

/-- A stored document matched by the free-text and category filters below. -/
def mugDoc : RawDoc :=
  { idField := some oid0, title := some (vstr "Blue Mug"),
    description := some (vstr "A ceramic mug"), price := none,
    category := some (vstr "kitchen"), in_stock := none, image := none,
    rating := none, reviews := none }

/-! Theorems. -/

/-- Helper: field-by-field characterisation of a successful
`_doc_to_product` call. -/
theorem doc_to_product_eq_some (d : RawDoc) (p : ProductOut)
    (hp : doc_to_product d = some p) :
    asStr d.title = some p.title ∧
    asOptStr d.description = some p.description ∧
    pyFloat (d.price.getD (vint 0)) = some p.price ∧
    asStr d.category = some p.category ∧
    p.in_stock = pyBool (d.in_stock.getD (vbool true)) ∧
    asOptStr d.image = some p.image ∧
    pyFloat (d.rating.getD (vnum (4.5 : ℚ))) = some p.rating ∧
    pyInt (d.reviews.getD (vint 0)) = some p.reviews ∧
    p.id = renderId d.idField := by
  simp only [doc_to_product, Option.bind_eq_some, Option.some.injEq] at hp
  obtain ⟨t, h1, dsc, h2, pr, h3, cat, h4, img, h5, r, h6, n, h7, h8⟩ := hp
  subst h8
  exact ⟨h1, h2, h3, h4, rfl, h5, h6, h7, rfl⟩

/-- Claim C1: the filter built by the list operation is, against any
document, the conjunction of (when free text is supplied and non-empty) a
case-insensitive substring match on `title` OR `description`, and (when a
non-empty category is supplied) an exact match on `category`; with neither
supplied it matches every document. -/
theorem list_filter_composition (s c : String) (hs : s ≠ "") (hc : c ≠ "")
    (d : RawDoc) :
    matchesFilter (build_filters none none) d = true ∧
    matchesFilter (build_filters (some s) none) d
      = (fieldCI d.title s || fieldCI d.description s) ∧
    matchesFilter (build_filters none (some c)) d
      = decide (d.category = some (vstr c)) ∧
    matchesFilter (build_filters (some s) (some c)) d
      = ((fieldCI d.title s || fieldCI d.description s)
          && decide (d.category = some (vstr c))) := by
  simp [build_filters, matchesFilter, hs, hc]

/-- Witness for C1 at free text "MUG" and category "kitchen" against a
concrete document, which the combined filter accepts. -/
theorem list_filter_composition_witness :
    matchesFilter (build_filters (some "MUG") (some "kitchen")) mugDoc
      = ((fieldCI mugDoc.title "MUG" || fieldCI mugDoc.description "MUG")
          && decide (mugDoc.category = some (vstr "kitchen"))) ∧
    matchesFilter (build_filters (some "MUG") (some "kitchen")) mugDoc
      = true :=
  ⟨(list_filter_composition "MUG" "kitchen" (by decide) (by decide)
      mugDoc).2.2.2,
   by decide⟩

/-- Claim C2: an absent `limit` defaults to 24; every limit inside `[1, 100]`
is accepted and the store query returns at most that many records; every
limit outside `[1, 100]` is rejected with a validation error rather than
clamped. -/
theorem limit_contract (n m : Int) (hn : 1 ≤ n ∧ n ≤ 100)
    (hm : ¬ (1 ≤ m ∧ m ≤ 100)) (docs : List RawDoc) (f : Filter) :
    validate_limit none = .ok 24 ∧
    validate_limit (some n) = .ok n ∧
    (find_with_limit docs f n).length ≤ n.toNat ∧
    validate_limit (some m) = .error .validation := by
  refine ⟨rfl, by simp [validate_limit, hn], ?_, by simp [validate_limit, hm]⟩
  exact List.length_take_le _ _

/-- Witness for C2 at the in-range limit 100 and the out-of-range limit 0. -/
theorem limit_contract_witness :
    validate_limit none = .ok 24 ∧
    validate_limit (some 100) = .ok 100 ∧
    (find_with_limit [] (build_filters none none) 100).length
      ≤ (100 : Int).toNat ∧
    validate_limit (some 0) = .error .validation :=
  limit_contract 100 0 (by decide) (by decide) [] (build_filters none none)

/-- Claim C3: `_doc_to_product` renders `_id` as a string into `id`, and an
absent `price`, `in_stock`, `rating`, `reviews`, `description` or `image`
key defaults to `0`, `true`, `4.5`, `0`, absent and absent respectively,
while present values pass through the corresponding coercion unchanged. -/
theorem doc_mapper_defaults (idf : Option String) (t c dsc img : String)
    (p r : ℚ) (rv : Int) (b : Bool) :
    doc_to_product
        { idField := idf, title := some (vstr t), description := none,
          price := none, category := some (vstr c), in_stock := none,
          image := none, rating := none, reviews := none }
      = some
        { id := renderId idf, title := t, description := none, price := 0,
          category := c, in_stock := true, image := none, rating := (4.5 : ℚ),
          reviews := 0 } ∧
    doc_to_product
        { idField := idf, title := some (vstr t),
          description := some (vstr dsc), price := some (vnum p),
          category := some (vstr c), in_stock := some (vbool b),
          image := some (vstr img), rating := some (vnum r),
          reviews := some (vint rv) }
      = some
        { id := renderId idf, title := t, description := some dsc, price := p,
          category := c, in_stock := b, image := some img, rating := r,
          reviews := rv } :=
  ⟨rfl, rfl⟩

/-- Claim C4: with the store reachable, `get_product` validates the raw
identifier first (a malformed identifier yields the 400 validation error
without any lookup), and for a well-formed identifier yields the 404
not-found error when no record matches and the mapped Product otherwise. -/
theorem get_product_contract (docs : List RawDoc) (rawId oid : String)
    (d : RawDoc) (p : ProductOut) :
    (isValidObjectId rawId = false →
      get_product (some docs) rawId = .error .validation) ∧
    (parseObjectId rawId = some oid →
      docs.find? (fun x => x.idField = some oid) = none →
      get_product (some docs) rawId = .error .notFound) ∧
    (parseObjectId rawId = some oid →
      docs.find? (fun x => x.idField = some oid) = some d →
      doc_to_product d = some p →
      get_product (some docs) rawId = .ok p) := by
  refine ⟨fun h => ?_, fun h1 h2 => ?_, fun h1 h2 h3 => ?_⟩
  · simp [get_product, parseObjectId, h]
  · simp [get_product, h1, h2]
  · simp [get_product, h1, h2, h3]

/-- Witness for C4: a malformed id is rejected, a valid but unknown id is
not found, and a valid stored id returns the mapped Product. -/
theorem get_product_contract_witness :
    get_product (some [d0]) "not-a-valid-id" = .error .validation ∧
    get_product (some []) oid0 = .error .notFound ∧
    get_product (some [d0]) oid0 = .ok p0 :=
  ⟨(get_product_contract [d0] "not-a-valid-id" oid0 d0 p0).1 (by decide),
   (get_product_contract [] oid0 oid0 d0 p0).2.1 (by decide) rfl,
   (get_product_contract [d0] oid0 oid0 d0 p0).2.2 (by decide) (by decide) rfl⟩

/-- Counterexample to claim C5 as stated: the legal creation request
`nullRatingInput` (an explicit JSON `null` rating) is inserted, but the
follow-up get fails with an internal error (`float(None)` raises in
`_doc_to_product`) instead of returning the created Product. -/
theorem roundtrip_counterexample :
    create_product (some []) nullRatingInput oid0
      = .ok (oid0, [toStoredDoc nullRatingInput oid0]) ∧
    get_product (some [toStoredDoc nullRatingInput oid0]) oid0
      = .error .internal :=
  ⟨rfl, rfl⟩

/-- Claim C5 (amended): for every ProductInput whose optional `rating` and
`reviews` are non-null, `create` followed by `get` on the returned (fresh,
lowercase, well-formed) identifier succeeds and returns a Product whose
fields equal the input's, only `id` differing. -/
theorem create_get_roundtrip (store : List RawDoc) (input : ProductIn)
    (oid : String) (r : ℚ) (n : Int)
    (hr : input.rating = some r) (hn : input.reviews = some n)
    (hv : isValidObjectId oid = true)
    (hl : oid.data.map Char.toLower = oid.data)
    (hfresh : store.find? (fun x => x.idField = some oid) = none) :
    create_product (some store) input oid
      = .ok (oid, store ++ [toStoredDoc input oid]) ∧
    get_product (some (store ++ [toStoredDoc input oid])) oid
      = .ok
        { id := oid, title := input.title, description := input.description,
          price := input.price, category := input.category,
          in_stock := input.in_stock, image := input.image, rating := r,
          reviews := n } := by
  have hparse : parseObjectId oid = some oid := by
    simp only [parseObjectId, hv, if_true]
    exact congrArg some (congrArg String.mk hl)
  have hfind : (store ++ [toStoredDoc input oid]).find?
      (fun x => x.idField = some oid) = some (toStoredDoc input oid) := by
    rw [List.find?_append, hfresh]
    simp [toStoredDoc]
  have hmap : doc_to_product (toStoredDoc input oid)
      = some
        { id := oid, title := input.title, description := input.description,
          price := input.price, category := input.category,
          in_stock := input.in_stock, image := input.image, rating := r,
          reviews := n } := by
    cases hd : input.description <;> cases hi : input.image <;>
      simp [doc_to_product, toStoredDoc, asStr, asOptStr, pyFloat, pyInt,
        pyBool, renderId, hr, hn, hd, hi]
  refine ⟨rfl, ?_⟩
  simp [get_product, hparse, hfind, hmap]

/-- Witness for amended C5 at a concrete input with non-null rating and
reviews, created into an empty store. -/
theorem create_get_roundtrip_witness :
    create_product (some []) goodInput oid0
      = .ok (oid0, [toStoredDoc goodInput oid0]) ∧
    get_product (some [toStoredDoc goodInput oid0]) oid0
      = .ok
        { id := oid0, title := goodInput.title,
          description := goodInput.description, price := goodInput.price,
          category := goodInput.category, in_stock := goodInput.in_stock,
          image := goodInput.image, rating := (4.5 : ℚ), reviews := 7 } :=
  create_get_roundtrip [] goodInput oid0 (4.5 : ℚ) 7 rfl rfl (by decide)
    (by decide) rfl

/-- Claim C6: each of the four operations fails with the 503
service-unavailable error when the store handle is unset, for every choice
of its other arguments; the check precedes any store access, so a failing
call leaves no effect on the store (the error carries no updated store). -/
theorem store_unavailable (q c : Option String) (lim : Int)
    (input : ProductIn) (oid rawId : String) :
    list_products none q c lim = .error .serviceUnavailable ∧
    get_product none rawId = .error .serviceUnavailable ∧
    create_product none input oid = .error .serviceUnavailable ∧
    list_categories none = .error .serviceUnavailable :=
  ⟨rfl, rfl, rfl, rfl⟩

/-- Claim C7: for every sequence of distinct category values the store
reports, the categories operation returns exactly the truthy elements; no
null and no empty-string entry ever appears, and the surviving values keep
the store's order (the result is a sublist of the input). -/
theorem categories_non_falsy (cats : List BVal) :
    list_categories (some cats) = .ok (cats.filter (fun c => pyBool c)) ∧
    (∀ v ∈ cats.filter (fun c => pyBool c), v ≠ vnull ∧ v ≠ vstr "") ∧
    List.Sublist (cats.filter (fun c => pyBool c)) cats := by
  refine ⟨rfl, ?_, List.filter_sublist cats⟩
  intro v hv
  have hb := List.of_mem_filter hv
  constructor <;> rintro rfl <;> simp [pyBool] at hb

/-- Counterexample to claim C8 as stated: a stored `reviews` value of `-3`
is passed through `int()` unchanged, so the produced Product has a negative
`reviews` field. -/
theorem reviews_nonneg_counterexample :
    doc_to_product negReviewsDoc = some negReviewsProduct ∧
    negReviewsProduct.reviews < 0 :=
  ⟨rfl, by decide⟩

/-- Claim C8 (amended): for every Product produced by `_doc_to_product`,
the `reviews` field is the plain integer coercion of the stored value —
no sign validation is applied, so it is negative whenever the stored value
is. -/
theorem reviews_coercion (d : RawDoc) (n : Int) (p : ProductOut)
    (hn : d.reviews = some (vint n)) (hp : doc_to_product d = some p) :
    p.reviews = n := by
  have h := (doc_to_product_eq_some d p hp).2.2.2.2.2.2.2.1
  rw [hn] at h
  simpa [pyInt] using h.symm

/-- Witness for amended C8 at the stored value `-3`. -/
theorem reviews_coercion_witness : negReviewsProduct.reviews = -3 :=
  reviews_coercion negReviewsDoc (-3) negReviewsProduct rfl rfl

/-- Claim C9: the mapper defaults fire only for absent keys; a record whose
`price`, `rating` or `reviews` key is present with a null value makes
`_doc_to_product` raise (the null reaches `float()` / `int()`), so no
Product is produced. -/
theorem null_numeric_fields_error (d : RawDoc)
    (h : d.price = some vnull ∨ d.rating = some vnull ∨
      d.reviews = some vnull) :
    doc_to_product d = none := by
  cases hdp : doc_to_product d with
  | none => rfl
  | some p =>
    obtain ⟨-, -, h3, -, -, -, h6, h7, -⟩ := doc_to_product_eq_some d p hdp
    rcases h with h | h | h
    · rw [h] at h3; simp [pyFloat] at h3
    · rw [h] at h6; simp [pyFloat] at h6
    · rw [h] at h7; simp [pyInt] at h7

/-- Witness for C9 at a concrete record with a null `price`. -/
theorem null_numeric_fields_error_witness :
    doc_to_product nullPriceDoc = none :=
  null_numeric_fields_error nullPriceDoc (Or.inl rfl)

/-- Claim C10: an empty-string free-text parameter together with an
empty-string category builds the very same filter as omitting both, and
that filter accepts every document. -/
theorem empty_params_match_all (d : RawDoc) :
    build_filters (some "") (some "") = build_filters none none ∧
    matchesFilter (build_filters (some "") (some "")) d = true :=
  ⟨rfl, rfl⟩

end ShoppingApi
